import Mathlib

/-
Shallow embedding of the Lab_Inventory application logic.

Sources embedded here:
  - src/types.ts                       (data model: InventoryItem, UserRef, ActivityLogEntry)
  - src/unnamed/part_000               (constants: DEFAULT_MIN_STOCK = 1)
  - src/components/ItemForm.tsx        (handleSubmit duplicate detection, lines 113-136)
  - src/unnamed/part_002               (InventoryDashboard: handleConsume, handleRestore, metrics)
  - src/components/InventoryCard.tsx   (handleQuantityIncrease, isLowStock)
  - src/components/modals/ConsumptionModal.tsx (handleSubmit guard)
  - src/unnamed/part_003               (EditModal: changes diff, handleSubmit, handleConfirmSave)
  - src/functions/src/index.ts         (sendNotificationEmail, checkInventoryAndNotify)

Firestore Timestamps are modelled as Int (milliseconds since the epoch).
Optional / possibly-undefined TypeScript fields are modelled as Option.
JavaScript truthiness on optional strings / booleans is made explicit below.
-/

namespace LabInventory

/-- Snapshot of a user identity (types.ts UserRef). -/
structure UserRef where
  uid : String
  name : Option String
  isAnonymous : Bool
deriving Repr, DecidableEq

/-- Authenticated user (firebase/auth User, the fields the app reads). -/
structure AppUser where
  uid : String
  displayName : Option String
  email : Option String
  isAnonymous : Bool
deriving Repr, DecidableEq

/-- Inventory item document (types.ts InventoryItem).  The TypeScript field
`section` is renamed `labSection` because `section` is a Lean keyword.
`expiryDate` is `Timestamp | null | undefined` in the source; both null and
undefined are modelled as `none`. -/
structure InventoryItem where
  id : String
  name : String
  quantity : Int
  minStock : Option Int
  expiryDate : Option Int
  lotNumber : Option String
  packagingType : Option String
  code : Option String
  temperature : Option String
  labSection : Option String
  createdAt : Int
  updatedAt : Int
  createdBy : UserRef
  updatedBy : UserRef
  lowStockNotified : Option Bool
  expiryWarningNotified : Option Bool
deriving Repr, DecidableEq

/-- ActivityLogType (types.ts). -/
inductive ActivityLogType where
  | CONSUME | EDIT | DELETE | CREATE | RESTORE | QUANTITY_ADJUST
deriving Repr, DecidableEq

/-- Variant payloads written into ActivityLogEntry.details by the call sites. -/
inductive LogDetails where
  | consume (consumedQuantity : Int) (reason : String) (newQuantity : Int)
      (itemName : String) (itemLot : Option String)
  | quantityAdjust (itemName : String) (itemLot : Option String)
      (change : Int) (newQuantity : Int)
  | restoreInfo (itemName : String) (itemLot : Option String)
  | editChanges (changes : List (String × String × String))
deriving Repr, DecidableEq

/-- Activity log entry (types.ts ActivityLogEntry), tagged with the id of the
item whose sub-collection it was appended to. -/
structure ActivityLogEntry where
  itemId : String
  type : ActivityLogType
  details : LogDetails
  user : UserRef
  timestamp : Int
deriving Repr, DecidableEq

/-- JavaScript String.prototype.trim, modelled over the character list
(drop leading and trailing whitespace).  Used instead of String.trim so that
concrete inputs evaluate inside the kernel. -/
def jsTrim (s : String) : String :=
  ⟨((s.data.dropWhile Char.isWhitespace).reverse.dropWhile Char.isWhitespace).reverse⟩

/-- JavaScript String.prototype.toLowerCase, modelled character-wise. -/
def jsToLower (s : String) : String :=
  ⟨s.data.map Char.toLower⟩

/-- JavaScript truthiness of an optional string: undefined and the empty
string are falsy. -/
def strTruthy : Option String → Bool
  | some s => s ≠ ""
  | none => false

/-- JavaScript truthiness of an optional boolean: undefined is falsy. -/
def boolTruthy : Option Bool → Bool
  | some b => b
  | none => false

/-- JavaScript `a || b` over nullable strings (null and "" are falsy). -/
def jsOr (a b : Option String) : Option String :=
  match a with
  | some s => if s = "" then b else some s
  | none => b

/-- JavaScript strict equality between a possibly-undefined string field and a
string: `undefined === s` is false for every string s. -/
def jsStrEq (a : Option String) (b : String) : Bool :=
  match a with
  | some s => s == b
  | none => false

/-- The user payload written by the call sites:
`{ uid, name: user.displayName || user.email, isAnonymous }`. -/
def userPayload (u : AppUser) : UserRef :=
  { uid := u.uid, name := jsOr u.displayName u.email, isAnonymous := u.isAnonymous }

/-- services/firebase.ts logActivity: appends one entry to the item's
activity log. -/
def logActivity (log : List ActivityLogEntry) (itemId : String) (u : AppUser)
    (ty : ActivityLogType) (details : LogDetails) (now : Int) :
    List ActivityLogEntry :=
  log ++ [{ itemId := itemId, type := ty, details := details,
            user := userPayload u, timestamp := now }]

/-- src/unnamed/part_000: `export const DEFAULT_MIN_STOCK = 1`. -/
def DEFAULT_MIN_STOCK : Int := 1

/- ------------------------------------------------------------------ -/
/- Duplicate resolver (ItemForm.tsx handleSubmit, lines 113-136)      -/
/- ------------------------------------------------------------------ -/

/-- ItemForm.tsx line 124:
`item.lotNumber && item.lotNumber.trim().toLowerCase() === trimmedLot.toLowerCase()`. -/
def lotMatches (trimmedLot : String) (item : InventoryItem) : Bool :=
  match item.lotNumber with
  | some l => decide (l ≠ "") && (jsToLower (jsTrim l) == jsToLower trimmedLot)
  | none => false

/-- ItemForm.tsx line 129:
`item.name.trim().toLowerCase() === trimmedName.toLowerCase() && !item.lotNumber`. -/
def bareNameMatches (trimmedName : String) (item : InventoryItem) : Bool :=
  (jsToLower (jsTrim item.name) == jsToLower trimmedName) && !(strTruthy item.lotNumber)

/-- ItemForm.tsx handleSubmit duplicate detection (lines 117-136): first a
lot-number search when the trimmed lot is non-empty, then, whenever that
search produced nothing, a bare-name search; returns the conflicting item
paired with the isLotDuplicate flag passed to onDuplicate. -/
def findDuplicate (inventory : List InventoryItem) (name lotNumber : String) :
    Option (InventoryItem × Bool) :=
  let trimmedName := jsTrim name
  let trimmedLot := jsTrim lotNumber
  let fromLot : Option (InventoryItem × Bool) :=
    if trimmedLot ≠ "" then
      (inventory.find? (lotMatches trimmedLot)).map (fun it => (it, true))
    else none
  match fromLot with
  | some r => some r
  | none =>
      (inventory.find? (bareNameMatches trimmedName)).map (fun it => (it, false))

/- ------------------------------------------------------------------ -/
/- Consume (part_002 handleConsume, lines 180-208;                     -/
/- ConsumptionModal.tsx handleSubmit, lines 17-38)                     -/
/- ------------------------------------------------------------------ -/

/-- part_002 handleConsume: computes newQuantity = quantity − amount, throws
"Stock cannot go below zero." when it is negative, otherwise appends one
CONSUME log entry and writes quantity/updatedAt/updatedBy on the item. -/
def handleConsume (item : InventoryItem) (quantityToConsume : Int)
    (logConsumedQuantity : Int) (logReason : String) (u : AppUser) (now : Int)
    (log : List ActivityLogEntry) :
    Except String (InventoryItem × List ActivityLogEntry) :=
  let newQuantity := item.quantity - quantityToConsume
  if newQuantity < 0 then Except.error "Stock cannot go below zero."
  else
    Except.ok
      ({ item with quantity := newQuantity, updatedAt := now,
                   updatedBy := userPayload u },
       logActivity log item.id u ActivityLogType.CONSUME
         (LogDetails.consume logConsumedQuantity logReason newQuantity
           item.name item.lotNumber) now)

/-- handleConsume together with the exception semantics at the caller: when
it throws, the item and the log are left exactly as they were. -/
def runConsume (item : InventoryItem) (quantityToConsume : Int)
    (logConsumedQuantity : Int) (logReason : String) (u : AppUser) (now : Int)
    (log : List ActivityLogEntry) :
    (InventoryItem × List ActivityLogEntry) × Option String :=
  match handleConsume item quantityToConsume logConsumedQuantity logReason
      u now log with
  | Except.ok s => (s, none)
  | Except.error e => ((item, log), some e)

/-- ConsumptionModal.tsx handleSubmit: rejects amounts outside
1..item.quantity with a message (without calling handleConsume), defaults a
blank reason to "N/A", and otherwise delegates to handleConsume. -/
def consumptionModalSubmit (item : InventoryItem) (quantityToConsume : Int)
    (reason : String) (u : AppUser) (now : Int) (log : List ActivityLogEntry) :
    (InventoryItem × List ActivityLogEntry) × Option String :=
  if quantityToConsume ≤ 0 ∨ item.quantity < quantityToConsume then
    ((item, log),
     some ("Quantity must be between 1 and " ++ toString item.quantity ++ "."))
  else
    runConsume item quantityToConsume quantityToConsume
      (if jsTrim reason = "" then "N/A" else jsTrim reason) u now log

/- ------------------------------------------------------------------ -/
/- Metrics and UI low-stock / expiry status (part_002 metrics,        -/
/- lines 210-224; InventoryCard.tsx lines 56-60; status filter)       -/
/- ------------------------------------------------------------------ -/

/-- part_002 line 212: `const oneWeekInMs = 7 * 24 * 60 * 60 * 1000`. -/
def oneWeekInMs : Int := 7 * 24 * 60 * 60 * 1000

/-- `item.expiryDate && item.expiryDate.toDate() < now` (part_002 line 218,
InventoryCard.tsx line 56). -/
def isExpired (now : Int) (item : InventoryItem) : Bool :=
  match item.expiryDate with
  | some d => decide (d < now)
  | none => false

/-- `item.expiryDate && item.expiryDate.toDate() < new Date(now + oneWeekInMs)
&& !isExpired` (part_002 line 219, InventoryCard.tsx line 57). -/
def isExpiringSoon (now : Int) (item : InventoryItem) : Bool :=
  match item.expiryDate with
  | some d => decide (d < now + oneWeekInMs) && !(isExpired now item)
  | none => false

/-- `item.quantity <= (item.minStock ?? DEFAULT_MIN_STOCK)` — the low-stock
test shared verbatim by the metrics (part_002 line 220), the status filter
(part_002 lines 245-248) and InventoryCard.tsx lines 59-60. -/
def isLowStockUI (item : InventoryItem) : Bool :=
  decide (item.quantity ≤ item.minStock.getD DEFAULT_MIN_STOCK)

/-- Aggregate metrics (part_002 lines 210-224). -/
structure InventoryMetrics where
  totalItems : Nat
  totalQuantity : Int
  lowStockCount : Nat
  expiringItemsCount : Nat
deriving Repr, DecidableEq

/-- part_002 metrics useMemo: totals plus low-stock and expired-or-expiring
counts over the live inventory. -/
def metrics (inventory : List InventoryItem) (now : Int) : InventoryMetrics :=
  { totalItems := inventory.length
    totalQuantity := (inventory.map (fun it => it.quantity)).sum
    lowStockCount := inventory.countP isLowStockUI
    expiringItemsCount :=
      inventory.countP (fun it => isExpired now it || isExpiringSoon now it) }

/- ------------------------------------------------------------------ -/
/- Quantity adjust (InventoryCard.tsx handleQuantityIncrease, 23-54)  -/
/- ------------------------------------------------------------------ -/

/-- InventoryCard.tsx handleQuantityIncrease: updates quantity to
old + delta, bumps updatedAt/updatedBy, resets lowStockNotified to false
when it was previously truthy, and appends one QUANTITY_ADJUST log entry. -/
def handleQuantityIncrease (item : InventoryItem) (delta : Int) (u : AppUser)
    (now : Int) (log : List ActivityLogEntry) :
    InventoryItem × List ActivityLogEntry :=
  let newQuantity := item.quantity + delta
  let updated :=
    { item with quantity := newQuantity, updatedAt := now,
                updatedBy := userPayload u,
                lowStockNotified :=
                  if boolTruthy item.lowStockNotified then some false
                  else item.lowStockNotified }
  (updated,
   logActivity log item.id u ActivityLogType.QUANTITY_ADJUST
     (LogDetails.quantityAdjust item.name item.lotNumber delta newQuantity) now)

/- ------------------------------------------------------------------ -/
/- Restore (part_002 handleRestore, lines 33-51)                      -/
/- ------------------------------------------------------------------ -/

/-- part_002 lines 37-41: the document written back to inventory on restore —
the deleted snapshot with both notification flags reset to false. -/
def restoredItem (item : InventoryItem) : InventoryItem :=
  { item with lowStockNotified := some false,
              expiryWarningNotified := some false }

/-- Firestore setDoc keyed by document id: replaces every document whose id
matches, or appends the document when the id is absent. -/
def setDocById (store : List InventoryItem) (docItem : InventoryItem) :
    List InventoryItem :=
  if store.any (fun x => x.id == docItem.id) then
    store.map (fun x => if x.id == docItem.id then docItem else x)
  else store ++ [docItem]

/-- part_002 handleRestore: writes restoredItem into inventory, deletes the
snapshot from deleted_inventory, and appends one RESTORE log entry. -/
def handleRestore (inventory deleted : List InventoryItem)
    (item : InventoryItem) (u : AppUser) (now : Int)
    (log : List ActivityLogEntry) :
    List InventoryItem × List InventoryItem × List ActivityLogEntry :=
  (setDocById inventory (restoredItem item),
   deleted.filter (fun x => !(x.id == item.id)),
   logActivity log item.id u ActivityLogType.RESTORE
     (LogDetails.restoreInfo item.name item.lotNumber) now)

/- ------------------------------------------------------------------ -/
/- Edit (part_003 EditModal, lines 95-174)                            -/
/- ------------------------------------------------------------------ -/

/-- The EditModal form state (part_003 lines 96-106): all values as the form
holds them, with the Number() conversions of quantity and minStock already
applied. -/
structure EditFormData where
  name : String
  quantity : Int
  minStock : Int
  expiryDate : String
  lotNumber : String
  packagingType : String
  code : String
  temperature : String
  labSection : String
deriving Repr, DecidableEq

/-- part_003 changes useMemo (lines 115-132): the field-by-field diff over
name, quantity, minStock, expiryDate, lotNumber, code, temperature, section
and packagingType.  `fmtInputDate` stands for utils/formatters
formatInputDate, whose source is not in the repository snapshot; the diff is
parametric in it.  Entries are (field, old, new) with old/new rendered as
display strings (missing string fields rendered as ""). -/
def computeChanges (fmtInputDate : Int → String) (item : InventoryItem)
    (form : EditFormData) : List (String × String × String) :=
  let trimmedName := jsTrim form.name
  let newQuantity := form.quantity
  let newMinStock := form.minStock
  let itemExpiryStr :=
    match item.expiryDate with
    | some d => fmtInputDate d
    | none => ""
  (if item.name ≠ trimmedName then [("name", item.name, trimmedName)] else [])
  ++ (if item.quantity ≠ newQuantity then
        [("quantity", toString item.quantity, toString newQuantity)] else [])
  ++ (if item.minStock.getD DEFAULT_MIN_STOCK ≠ newMinStock then
        [("minStock", toString (item.minStock.getD DEFAULT_MIN_STOCK),
          toString newMinStock)] else [])
  ++ (if itemExpiryStr ≠ form.expiryDate then
        [("expiryDate", itemExpiryStr, form.expiryDate)] else [])
  ++ (if jsStrEq item.lotNumber form.lotNumber then [] else
        [("lotNumber", item.lotNumber.getD "", form.lotNumber)])
  ++ (if jsStrEq item.code form.code then [] else
        [("code", item.code.getD "", form.code)])
  ++ (if jsStrEq item.temperature form.temperature then [] else
        [("temperature", item.temperature.getD "", form.temperature)])
  ++ (if jsStrEq item.labSection form.labSection then [] else
        [("section", item.labSection.getD "", form.labSection)])
  ++ (if jsStrEq item.packagingType form.packagingType then [] else
        [("packagingType", item.packagingType.getD "", form.packagingType)])

/-- part_003 handleConfirmSave (lines 151-166): the updateDoc payload —
all form fields spread over the item, name trimmed, expiryDate parsed (or
null when blank), updatedAt/updatedBy bumped.  `parseInputDate` stands for
`Timestamp.fromDate(new Date(...))` on the form's date string. -/
def applyEdit (parseInputDate : String → Int) (item : InventoryItem)
    (form : EditFormData) (u : AppUser) (now : Int) : InventoryItem :=
  { item with
    name := jsTrim form.name,
    quantity := form.quantity,
    minStock := some form.minStock,
    expiryDate :=
      if form.expiryDate ≠ "" then some (parseInputDate form.expiryDate)
      else none,
    lotNumber := some form.lotNumber,
    packagingType := some form.packagingType,
    code := some form.code,
    temperature := some form.temperature,
    labSection := some form.labSection,
    updatedAt := now,
    updatedBy := userPayload u }

/-- part_003 handleSubmit plus the confirmation dialog (lines 136-174): an
invalid form (blank name or negative quantity) or an empty diff performs no
write and no log append; a non-empty diff commits only when the user
confirms (`confirmed`), writing the applyEdit payload and appending one EDIT
log entry carrying the diff. -/
def editSubmit (fmtInputDate : Int → String) (parseInputDate : String → Int)
    (confirmed : Bool) (item : InventoryItem) (form : EditFormData)
    (u : AppUser) (now : Int) (log : List ActivityLogEntry) :
    InventoryItem × List ActivityLogEntry :=
  if jsTrim form.name = "" ∨ form.quantity < 0 then (item, log)
  else if computeChanges fmtInputDate item form ≠ [] then
    if confirmed then
      (applyEdit parseInputDate item form u now,
       logActivity log item.id u ActivityLogType.EDIT
         (LogDetails.editChanges (computeChanges fmtInputDate item form)) now)
    else (item, log)
  else (item, log)

/- ------------------------------------------------------------------ -/
/- Scheduled notifier (functions/src/index.ts)                        -/
/- ------------------------------------------------------------------ -/

/-- Outcome of one notification email attempt. -/
inductive EmailOutcome where
  | sent
  | failedLogged
  | skippedNotConfigured
deriving Repr, DecidableEq

/-- index.ts sendNotificationEmail (lines 34-65): skips when the transporter
or the recipient is not configured; a delivery failure is caught and logged.
The function never propagates an error to its caller. -/
def sendNotificationEmail (transporterConfigured recipientConfigured
    deliveryOk : Bool) : EmailOutcome :=
  if !transporterConfigured then EmailOutcome.skippedNotConfigured
  else if !recipientConfigured then EmailOutcome.skippedNotConfigured
  else if deliveryOk then EmailOutcome.sent
  else EmailOutcome.failedLogged

/-- index.ts line 89: the low-stock pass query
`where("lowStockNotified", "==", false)` (a missing flag does not match). -/
def lowStockQueryMatches (it : InventoryItem) : Bool :=
  it.lowStockNotified == some false

/-- index.ts line 95: the local re-check
`item.quantity <= (item.minStock ?? 5)`. -/
def lowStockCheck (it : InventoryItem) : Bool :=
  decide (it.quantity ≤ it.minStock.getD 5)

/-- An item for which the low-stock pass sends an email and sets the flag. -/
def lowStockSelected (it : InventoryItem) : Bool :=
  lowStockQueryMatches it && lowStockCheck it

/-- index.ts lines 112-118: the expiry pass query
`where("expiryWarningNotified", "==", false)` and
`where("expiryDate", "<=", warnDate)` (items with no expiry date do not
match). -/
def expirySelected (warnDate : Int) (it : InventoryItem) : Bool :=
  (it.expiryWarningNotified == some false) &&
  (match it.expiryDate with
   | some d => decide (d ≤ warnDate)
   | none => false)

/-- The per-item flag updates pushed by checkInventoryAndNotify: the
low-stock pass sets lowStockNotified, the expiry pass sets
expiryWarningNotified, both unconditionally for every selected item. -/
def notifyStep (warnDate : Int) (it : InventoryItem) : InventoryItem :=
  let it1 :=
    if lowStockSelected it then { it with lowStockNotified := some true }
    else it
  if expirySelected warnDate it then
    { it1 with expiryWarningNotified := some true }
  else it1

/-- index.ts checkInventoryAndNotify (lines 71-147): both passes over the
inventory snapshot; returns the updated items and the outcomes of every
email attempted.  `deliveryOk` is the environment's per-item delivery
outcome. -/
def checkInventoryAndNotify (transporterConfigured recipientConfigured : Bool)
    (deliveryOk : InventoryItem → Bool) (inventory : List InventoryItem)
    (warnDate : Int) : List InventoryItem × List EmailOutcome :=
  let lowEmails :=
    (inventory.filter lowStockSelected).map
      (fun it => sendNotificationEmail transporterConfigured
        recipientConfigured (deliveryOk it))
  let expEmails :=
    (inventory.filter (expirySelected warnDate)).map
      (fun it => sendNotificationEmail transporterConfigured
        recipientConfigured (deliveryOk it))
  (inventory.map (notifyStep warnDate), lowEmails ++ expEmails)

/- ------------------------------------------------------------------ -/
/- Concrete sample data used by witnesses and counterexamples         -/
/- ------------------------------------------------------------------ -/

/-- A sample user. -/
def user0 : UserRef := { uid := "u1", name := some "Alice", isAnonymous := false }

/-- A sample authenticated user. -/
def appUser0 : AppUser :=
  { uid := "u1", displayName := some "Alice", email := some "a@lab.test",
    isAnonymous := false }

/-- A lot-less active item named "Gauze". -/
def gauzeItem : InventoryItem :=
  { id := "i1", name := "Gauze", quantity := 5, minStock := none,
    expiryDate := none, lotNumber := none, packagingType := none,
    code := none, temperature := none, labSection := none,
    createdAt := 0, updatedAt := 0, createdBy := user0, updatedBy := user0,
    lowStockNotified := some false, expiryWarningNotified := some false }

/-- An item with 2 units in stock. -/
def stockItem : InventoryItem :=
  { gauzeItem with id := "i2", name := "WBC Lyse", quantity := 2,
                   minStock := some 1, lotNumber := some "L1002A" }

/-- An item whose expiryDate is exactly now + 7 days, for now = 0. -/
def itemExpiringAtExactly7Days : InventoryItem :=
  { gauzeItem with id := "i3", expiryDate := some 604800000 }

/-- An item whose expiryDate is exactly now + 7 days + 1 second, for now = 0. -/
def itemExpiringAt7DaysPlus1s : InventoryItem :=
  { gauzeItem with id := "i4", expiryDate := some 604801000 }

/-- An un-notified item with no minStock and quantity 3: low stock for the
notifier (3 ≤ 5) but not for the UI (3 > 1). -/
def lowDivergentItem : InventoryItem :=
  { gauzeItem with id := "i6", quantity := 3, minStock := none,
                   lowStockNotified := some false }

/-- An item whose low-stock alert has already fired. -/
def lowNotifiedItem : InventoryItem :=
  { gauzeItem with id := "i7", quantity := 1, lowStockNotified := some true }

/-- A soft-deleted snapshot with both notification flags still true. -/
def deletedSnapshotItem : InventoryItem :=
  { gauzeItem with id := "i8", lowStockNotified := some true,
                   expiryWarningNotified := some true }

/-- An item used to exercise the edit diff. -/
def editItem : InventoryItem :=
  { gauzeItem with id := "i9", name := "Alcohol", quantity := 5,
                   minStock := some 2, expiryDate := none,
                   lotNumber := some "LX", packagingType := some "BOX",
                   code := some "C9", temperature := some "RT",
                   labSection := some "Chemistry" }

/-- A form state identical to editItem, producing an empty diff. -/
def editFormUnchanged : EditFormData :=
  { name := "Alcohol", quantity := 5, minStock := 2, expiryDate := "",
    lotNumber := "LX", packagingType := "BOX", code := "C9",
    temperature := "RT", labSection := "Chemistry" }

/- ------------------------------------------------------------------ -/
/- Theorems                                                            -/
/- ------------------------------------------------------------------ -/

/-- C1 counterexample: the active inventory holds only the lot-less item
"Gauze"; the candidate has name "Gauze" and the non-empty lot "L2", which
matches no existing lotNumber.  The claim predicts no conflict, but the
resolver reports a name-match conflict (isLot = false). -/
theorem findDuplicate_unmatched_lot_counterexample :
    (jsTrim "L2" ≠ "") ∧
    List.find? (lotMatches (jsTrim "L2")) [gauzeItem] = none ∧
    findDuplicate [gauzeItem] "Gauze" "L2" = some (gauzeItem, false) := by
  refine ⟨by decide, by decide, by decide⟩

/-- C1 (amended): when the trimmed lot is non-empty and no active item
matches it, the resolver still runs the bare-name search, so the outcome is
exactly the bare-name search result tagged as a name match (isLot = false) —
not necessarily "no conflict". -/
theorem findDuplicate_unmatched_lot_falls_back_to_name
    (inventory : List InventoryItem) (name lotNumber : String)
    (hlot : jsTrim lotNumber ≠ "")
    (hnone : List.find? (lotMatches (jsTrim lotNumber)) inventory = none) :
    findDuplicate inventory name lotNumber =
      (inventory.find? (bareNameMatches (jsTrim name))).map (fun it => (it, false)) := by
  simp [findDuplicate, hlot, hnone]

/-- C1 amended-claim witness at a concrete input. -/
theorem findDuplicate_unmatched_lot_falls_back_to_name_witness :
    findDuplicate [gauzeItem] "Gauze" "L2" =
      (List.find? (bareNameMatches (jsTrim "Gauze")) [gauzeItem]).map
        (fun it => (it, false)) :=
  findDuplicate_unmatched_lot_falls_back_to_name [gauzeItem] "Gauze" "L2"
    (by decide) (by decide)

/-- C2: for every item and every amount with amount > item.quantity, Consume
fails with the insufficient-stock error and leaves the item and the activity
log exactly unchanged (no item write, no log append); the consumption modal
likewise rejects the amount without any state change. -/
theorem consume_insufficient_rejected_atomically
    (item : InventoryItem) (amount logQ : Int) (reason : String) (u : AppUser)
    (now : Int) (log : List ActivityLogEntry)
    (h : item.quantity < amount) :
    runConsume item amount logQ reason u now log =
      ((item, log), some "Stock cannot go below zero.") ∧
    (consumptionModalSubmit item amount reason u now log).1 = (item, log) ∧
    ((consumptionModalSubmit item amount reason u now log).2).isSome = true := by
  have hneg : item.quantity - amount < 0 := by omega
  refine ⟨?_, ?_, ?_⟩
  · simp [runConsume, handleConsume, hneg]
  · simp only [consumptionModalSubmit]
    rw [if_pos (Or.inr h)]
  · simp only [consumptionModalSubmit]
    rw [if_pos (Or.inr h)]
    rfl

/-- C2 witness: consuming 3 from an item holding 2 is rejected with the
error and no state change. -/
theorem consume_insufficient_rejected_atomically_witness :
    (2 : Int) < 3 ∧
    runConsume stockItem 3 3 "spill" appUser0 100 [] =
      ((stockItem, []), some "Stock cannot go below zero.") :=
  ⟨by decide,
   (consume_insufficient_rejected_atomically stockItem 3 3 "spill" appUser0 100 []
     (by decide)).1⟩

/-- C3: for every amount with 0 < amount ≤ item.quantity, Consume succeeds
(no error) and the item's new quantity is the old quantity minus the amount;
in particular consuming the whole stock yields quantity 0. -/
theorem consume_success_subtracts
    (item : InventoryItem) (amount logQ : Int) (reason : String) (u : AppUser)
    (now : Int) (log : List ActivityLogEntry)
    (h1 : 0 < amount) (h2 : amount ≤ item.quantity) :
    ∃ it' log',
      runConsume item amount logQ reason u now log = ((it', log'), none) ∧
      it'.quantity = item.quantity - amount := by
  have hnneg : ¬ (item.quantity - amount < 0) := by omega
  refine ⟨{ item with quantity := item.quantity - amount, updatedAt := now,
                      updatedBy := userPayload u },
          logActivity log item.id u ActivityLogType.CONSUME
            (LogDetails.consume logQ reason (item.quantity - amount)
              item.name item.lotNumber) now, ?_, rfl⟩
  simp [runConsume, handleConsume, hnneg]

/-- C3 witness: consuming the full stock of 2 succeeds and leaves 0. -/
theorem consume_success_subtracts_witness :
    ∃ it' log',
      runConsume stockItem 2 2 "used" appUser0 100 [] = ((it', log'), none) ∧
      it'.quantity = stockItem.quantity - 2 :=
  consume_success_subtracts stockItem 2 2 "used" appUser0 100 []
    (by decide) (by decide)

/-- C10: a successful Consume modifies only quantity, updatedAt and
updatedBy; every other item field (id, name, minStock, expiryDate,
lotNumber, code, temperature, section, packagingType, createdAt, createdBy,
lowStockNotified, expiryWarningNotified) is unchanged — in particular the
notification flags are untouched. -/
theorem consume_frame_only_quantity_updatedAt_updatedBy
    (item : InventoryItem) (amount logQ : Int) (reason : String) (u : AppUser)
    (now : Int) (log : List ActivityLogEntry)
    (h1 : 0 < amount) (h2 : amount ≤ item.quantity) :
    ∃ it' log',
      runConsume item amount logQ reason u now log = ((it', log'), none) ∧
      it'.quantity = item.quantity - amount ∧
      it'.updatedAt = now ∧ it'.updatedBy = userPayload u ∧
      it'.id = item.id ∧ it'.name = item.name ∧
      it'.minStock = item.minStock ∧ it'.expiryDate = item.expiryDate ∧
      it'.lotNumber = item.lotNumber ∧ it'.code = item.code ∧
      it'.temperature = item.temperature ∧ it'.labSection = item.labSection ∧
      it'.packagingType = item.packagingType ∧
      it'.createdAt = item.createdAt ∧ it'.createdBy = item.createdBy ∧
      it'.lowStockNotified = item.lowStockNotified ∧
      it'.expiryWarningNotified = item.expiryWarningNotified := by
  have hnneg : ¬ (item.quantity - amount < 0) := by omega
  refine ⟨{ item with quantity := item.quantity - amount, updatedAt := now,
                      updatedBy := userPayload u },
          logActivity log item.id u ActivityLogType.CONSUME
            (LogDetails.consume logQ reason (item.quantity - amount)
              item.name item.lotNumber) now, ?_,
          rfl, rfl, rfl, rfl, rfl, rfl, rfl, rfl, rfl, rfl, rfl, rfl, rfl,
          rfl, rfl, rfl⟩
  simp [runConsume, handleConsume, hnneg]

/-- C10 witness: a concrete successful consume, with the frame conditions
instantiated. -/
theorem consume_frame_only_quantity_updatedAt_updatedBy_witness :
    ∃ it' log',
      runConsume stockItem 1 1 "qc" appUser0 100 [] = ((it', log'), none) ∧
      it'.quantity = stockItem.quantity - 1 ∧
      it'.updatedAt = 100 ∧ it'.updatedBy = userPayload appUser0 ∧
      it'.id = stockItem.id ∧ it'.name = stockItem.name ∧
      it'.minStock = stockItem.minStock ∧ it'.expiryDate = stockItem.expiryDate ∧
      it'.lotNumber = stockItem.lotNumber ∧ it'.code = stockItem.code ∧
      it'.temperature = stockItem.temperature ∧
      it'.labSection = stockItem.labSection ∧
      it'.packagingType = stockItem.packagingType ∧
      it'.createdAt = stockItem.createdAt ∧ it'.createdBy = stockItem.createdBy ∧
      it'.lowStockNotified = stockItem.lowStockNotified ∧
      it'.expiryWarningNotified = stockItem.expiryWarningNotified :=
  consume_frame_only_quantity_updatedAt_updatedBy stockItem 1 1 "qc" appUser0 100 []
    (by decide) (by decide)

/-- C4 counterexample: with now = 0, an item expiring exactly at now + 7 days
does not count toward expiringItemsCount (the comparison is strict), contrary
to the claim; an item expiring at now + 7 days + 1 second does not count
either. -/
theorem metrics_expiring_exact_boundary_counterexample :
    (metrics [itemExpiringAtExactly7Days] 0).expiringItemsCount = 0 ∧
    (metrics [itemExpiringAt7DaysPlus1s] 0).expiringItemsCount = 0 := by
  refine ⟨by decide, by decide⟩

/-- An item contributes to the expired-or-expiring-soon count exactly when it
has an expiry date strictly before now + 7 days. -/
theorem expired_or_expiringSoon_iff_strictly_before (now : Int)
    (it : InventoryItem) :
    (isExpired now it || isExpiringSoon now it) =
      (match it.expiryDate with
       | some d => decide (d < now + oneWeekInMs)
       | none => false) := by
  have hw : (0 : Int) < oneWeekInMs := by decide
  cases h : it.expiryDate with
  | none => simp [isExpired, isExpiringSoon, h]
  | some d =>
      simp only [isExpired, isExpiringSoon, h]
      by_cases h1 : d < now
      · have h2 : d < now + oneWeekInMs := by omega
        simp [h1, h2]
      · simp [h1]

/-- C4 (amended): expiringItemsCount counts exactly the items whose
expiryDate is strictly before now + 7 days; an item expiring exactly at
now + 7 days does not count, and neither does one expiring at
now + 7 days + 1 second. -/
theorem metrics_expiring_strict_boundary (inventory : List InventoryItem)
    (now : Int) :
    (metrics inventory now).expiringItemsCount =
      inventory.countP (fun it =>
        match it.expiryDate with
        | some d => decide (d < now + oneWeekInMs)
        | none => false) := by
  have hfun : (fun it => isExpired now it || isExpiringSoon now it) =
      (fun it =>
        match it.expiryDate with
        | some d => decide (d < now + oneWeekInMs)
        | none => false) :=
    funext (fun it => expired_or_expiringSoon_iff_strictly_before now it)
  simp [metrics, hfun]

/-- C5: within the low-stock pass over un-notified items, the notifier sends
and flags exactly when quantity ≤ (minStock ?? 5), while the UI low-stock
test used by the metrics, the status filter and the cards is
quantity ≤ (minStock ?? DEFAULT_MIN_STOCK) with DEFAULT_MIN_STOCK = 1 — two
different fallback defaults for the same field, and they genuinely diverge. -/
theorem lowStock_default_notifier_5_ui_1 :
    (∀ it : InventoryItem, it.lowStockNotified = some false →
        (lowStockSelected it = true ↔ it.quantity ≤ it.minStock.getD 5)) ∧
    (∀ it : InventoryItem,
        isLowStockUI it = true ↔
          it.quantity ≤ it.minStock.getD DEFAULT_MIN_STOCK) ∧
    DEFAULT_MIN_STOCK = 1 ∧
    (∀ (inv : List InventoryItem) (now : Int),
        (metrics inv now).lowStockCount = inv.countP isLowStockUI) ∧
    (∃ it : InventoryItem, it.lowStockNotified = some false ∧
        lowStockSelected it = true ∧ isLowStockUI it = false) := by
  refine ⟨?_, ?_, rfl, fun inv now => rfl,
          ⟨lowDivergentItem, rfl, by decide, by decide⟩⟩
  · intro it h
    simp [lowStockSelected, lowStockQueryMatches, lowStockCheck, h]
  · intro it
    simp [isLowStockUI]

/-- C5 witness: the notifier-side equivalence instantiated at a concrete
un-notified item. -/
theorem lowStock_default_notifier_5_ui_1_witness :
    lowStockSelected lowDivergentItem = true ↔
      lowDivergentItem.quantity ≤ lowDivergentItem.minStock.getD 5 :=
  lowStock_default_notifier_5_ui_1.1 lowDivergentItem rfl

/-- C6: the items written back by the scheduled notifier do not depend on
email configuration or delivery outcomes; every item selected by the
low-stock pass ends with lowStockNotified = true and every item selected by
the expiry pass ends with expiryWarningNotified = true, and the number of
email attempts (the batch) is also outcome-independent. -/
theorem notifier_flag_set_regardless_of_email
    (tc₁ rc₁ tc₂ rc₂ : Bool) (ok₁ ok₂ : InventoryItem → Bool)
    (inventory : List InventoryItem) (warnDate : Int) :
    (checkInventoryAndNotify tc₁ rc₁ ok₁ inventory warnDate).1 =
      inventory.map (notifyStep warnDate) ∧
    (checkInventoryAndNotify tc₁ rc₁ ok₁ inventory warnDate).1 =
      (checkInventoryAndNotify tc₂ rc₂ ok₂ inventory warnDate).1 ∧
    (checkInventoryAndNotify tc₁ rc₁ ok₁ inventory warnDate).2.length =
      (checkInventoryAndNotify tc₂ rc₂ ok₂ inventory warnDate).2.length ∧
    (∀ it : InventoryItem, lowStockSelected it = true →
        (notifyStep warnDate it).lowStockNotified = some true) ∧
    (∀ it : InventoryItem, expirySelected warnDate it = true →
        (notifyStep warnDate it).expiryWarningNotified = some true) := by
  refine ⟨rfl, rfl, ?_, ?_, ?_⟩
  · simp [checkInventoryAndNotify]
  · intro it h
    by_cases h2 : expirySelected warnDate it <;> simp [notifyStep, h, h2]
  · intro it h
    by_cases h2 : lowStockSelected it <;> simp [notifyStep, h, h2]

/-- C6 witness: a concretely selected low-stock item ends with its dedup
flag set. -/
theorem notifier_flag_set_regardless_of_email_witness :
    (notifyStep 0 lowDivergentItem).lowStockNotified = some true :=
  (notifier_flag_set_regardless_of_email true true false false
      (fun _ => true) (fun _ => false) [] 0).2.2.2.1
    lowDivergentItem (by decide)

/-- C7: for every positive delta, handleQuantityIncrease sets the new
quantity to old + delta, and whenever lowStockNotified was true beforehand
it is false afterwards. -/
theorem quantityAdjust_adds_and_rearms_alert
    (item : InventoryItem) (delta : Int) (u : AppUser) (now : Int)
    (log : List ActivityLogEntry) (h : 0 < delta) :
    (handleQuantityIncrease item delta u now log).1.quantity =
      item.quantity + delta ∧
    (item.lowStockNotified = some true →
      (handleQuantityIncrease item delta u now log).1.lowStockNotified =
        some false) := by
  refine ⟨rfl, fun hl => ?_⟩
  simp [handleQuantityIncrease, boolTruthy, hl]

/-- C7 witness: incrementing a notified item by 1. -/
theorem quantityAdjust_adds_and_rearms_alert_witness :
    (handleQuantityIncrease lowNotifiedItem 1 appUser0 50 []).1.quantity =
      lowNotifiedItem.quantity + 1 ∧
    (lowNotifiedItem.lowStockNotified = some true →
      (handleQuantityIncrease lowNotifiedItem 1 appUser0 50 []).1.lowStockNotified =
        some false) :=
  quantityAdjust_adds_and_rearms_alert lowNotifiedItem 1 appUser0 50 []
    (by decide)

/-- C8: every document carrying the restored item's id in the inventory
written by handleRestore has both notification flags equal to false,
whatever values the deleted snapshot held. -/
theorem restore_resets_notification_flags
    (inventory deleted : List InventoryItem) (item : InventoryItem)
    (u : AppUser) (now : Int) (log : List ActivityLogEntry)
    (x : InventoryItem)
    (hx : x ∈ (handleRestore inventory deleted item u now log).1)
    (hid : x.id = item.id) :
    x.lowStockNotified = some false ∧ x.expiryWarningNotified = some false := by
  have hrid : (restoredItem item).id = item.id := rfl
  simp only [handleRestore, setDocById, hrid] at hx
  by_cases hany : inventory.any (fun y => y.id == item.id)
  · rw [if_pos hany] at hx
    rcases List.mem_map.1 hx with ⟨y, _, rfl⟩
    by_cases hyid : y.id == item.id
    · simp [hyid, restoredItem]
    · rw [if_neg hyid] at hid ⊢
      exact absurd hid (by simpa using hyid)
  · rw [if_neg hany] at hx
    rcases List.mem_append.1 hx with hmem | hmem
    · rcases List.any_eq_false.1 (Bool.not_eq_true _ ▸ hany) x hmem with hfalse
      exact absurd hid (by simpa using hfalse)
    · rcases List.mem_singleton.1 hmem with rfl
      exact ⟨rfl, rfl⟩

/-- C8 witness: restoring a snapshot whose flags are both true yields a
stored document with both flags false. -/
theorem restore_resets_notification_flags_witness :
    (restoredItem deletedSnapshotItem).lowStockNotified = some false ∧
    (restoredItem deletedSnapshotItem).expiryWarningNotified = some false :=
  restore_resets_notification_flags [] [deletedSnapshotItem]
    deletedSnapshotItem appUser0 0 [] (restoredItem deletedSnapshotItem)
    (by decide) rfl

/-- C9: an edit whose computed field-by-field diff is empty performs no item
write and no log append — the item and the activity log come back exactly
unchanged, whether or not the user would have confirmed. -/
theorem edit_empty_diff_is_noop
    (fmtInputDate : Int → String) (parseInputDate : String → Int)
    (confirmed : Bool) (item : InventoryItem) (form : EditFormData)
    (u : AppUser) (now : Int) (log : List ActivityLogEntry)
    (h : computeChanges fmtInputDate item form = []) :
    editSubmit fmtInputDate parseInputDate confirmed item form u now log =
      (item, log) := by
  unfold editSubmit
  by_cases hv : (jsTrim form.name = "" ∨ form.quantity < 0)
  · simp [hv]
  · simp [hv, h]

/-- C9 witness: a form identical to the item produces an empty diff and the
edit leaves both the item and the log untouched. -/
theorem edit_empty_diff_is_noop_witness :
    editSubmit (fun _ => "") (fun _ => 0) true editItem editFormUnchanged
      appUser0 0 [] = (editItem, []) :=
  edit_empty_diff_is_noop (fun _ => "") (fun _ => 0) true editItem
    editFormUnchanged appUser0 0 [] (by decide)

end LabInventory
